import Mathlib

/-!
Shallow embedding of the real-time collaboration core of the groupapp
repository (src/app/__init__.py and src/app/utils/permissions.py):
the permission calculator, the connection registry, the socket event
handlers (join_room, message, whiteboard_draw, grant/revoke capability
handlers, leave_room, disconnect), the session timer monitor and the
group streak monitor.  Identifiers (user ids, session ids, sids, room
names) are modelled as strings, matching the `str(...)` coercions the
source applies before every comparison.  Handler side effects (socket
emits, document-store operations, background tasks) are reified as data
so theorems can speak about what a handler broadcast and persisted.
-/

namespace GroupApp

/-! ### Strings and object ids -/

/-- Model of `str.startswith` on the underlying character lists. -/
def listStarts : List Char → List Char → Bool
  | _, [] => true
  | [], _ :: _ => false
  | c :: cs, d :: ds => c = d && listStarts cs ds

/-- `s.startswith(p)` from Python, as used on room names. -/
def strStarts (s p : String) : Bool := listStarts s.data p.data

/-- Characters after the first `':'`: `room.split(':', 1)[1]` for a
string that contains a colon. -/
def afterColonList : List Char → List Char
  | [] => []
  | c :: rest => if c = ':' then rest else afterColonList rest

/-- `room.split(':', 1)[1]`, the session id part of a `whiteboard:<id>`
room name. -/
def afterColon (s : String) : String := String.mk (afterColonList s.data)

/-- Hex digit test used by `bson.ObjectId.is_valid` on 24-char strings. -/
def isHexChar (c : Char) : Bool :=
  (48 ≤ c.toNat && c.toNat ≤ 57) || (97 ≤ c.toNat && c.toNat ≤ 102) ||
    (65 ≤ c.toNat && c.toNat ≤ 70)

/-- `ObjectId.is_valid(s)` for a string argument: exactly 24 hex chars. -/
def isValidObjectId (s : String) : Bool :=
  s.data.length = 24 && s.data.all isHexChar

/-- `_is_valid_object_id(oid)` from src/app/__init__.py:
`bool(oid) and ObjectId.is_valid(str(oid))`. -/
def validOid (s : String) : Bool := (s != "") && isValidObjectId s

/-! ### Whiteboard session documents and the permission calculator -/

/-- A whiteboard session document, as read from the `whiteboards`
collection.  Ids are the `str(...)` images of the stored ObjectIds;
drawing entries are opaque payloads. -/
structure Whiteboard where
  wid : String
  created_by : String
  group_id : Option String
  is_active : Bool
  participants : List String
  can_draw : List String
  can_speak : List String
  can_share_screen : List String
  drawing_data : List String
deriving DecidableEq

/-- The permission record returned by `compute_permissions`. -/
structure Permissions where
  can_draw : Bool
  can_speak : Bool
  can_share : Bool
  can_publish : Bool
deriving DecidableEq

/-- `compute_permissions(wb, user_id)` from src/app/utils/permissions.py:
creator is implicitly granted everything, grant lists are additive,
`can_publish` is the disjunction of speak and share. -/
def compute_permissions (wb : Whiteboard) (user_id : String) : Permissions :=
  let is_creator := decide (wb.created_by = user_id)
  let cd := is_creator || decide (user_id ∈ wb.can_draw)
  let cs := is_creator || decide (user_id ∈ wb.can_speak)
  let csh := is_creator || decide (user_id ∈ wb.can_share_screen)
  { can_draw := cd, can_speak := cs, can_share := csh, can_publish := cs || csh }

/-! ### Reified side effects of socket handlers -/

/-- A JSON-like payload value for socket events. -/
inductive Val where
  | s (v : String)
  | b (v : Bool)
  | n (v : Nat)
  | arr (vs : List Val)
  | obj (fields : List (String × Val))
  | null

/-- Where an emit is delivered: back to the sender, to a room, to a room
with the sender's sid skipped, or to one specific sid. -/
inductive Target where
  | sender
  | room (r : String)
  | roomSkipSender (r : String)
  | sid (s : String)

/-- One `emit(...)` call: event name, payload, destination. -/
structure Emit where
  event : String
  payload : Val
  target : Target

/-- One document-store call issued by a handler. -/
inductive DbOp where
  | updateOne (coll : String) (docId : String) (fields : List (String × Val))
  | pushToArray (coll : String) (docId : String) (field : String) (value : Val)
  | pullFromArray (coll : String) (docId : String) (field : String) (value : Val)
  | insertOne (coll : String) (doc : List (String × Val))

/-- A background task dispatched with `start_background_task`. -/
inductive BgTask where
  | deleteMediaRoom (room : String)
  | updateMediaPerms (room : String) (target : String) (canPublish : Bool)

/-- All side effects of one handler invocation, in program order. -/
structure Effects where
  emits : List Emit
  dbOps : List DbOp
  tasks : List BgTask

/-- The empty effect bundle (a handler that returned early). -/
def noEffects : Effects := { emits := [], dbOps := [], tasks := [] }

/-- Event names of an effect bundle, in emission order. -/
def emitNames (e : Effects) : List String := e.emits.map Emit.event

/-! ### Connection registry (Presence Tracker) -/

/-- Association-list lookup over string keys (Python dict `.get`). -/
def alookup {α : Type} : List (String × α) → String → Option α
  | [], _ => none
  | (k2, v) :: rest, k => if k2 = k then some v else alookup rest k

/-- Association-list assignment (`d[k] = v`). -/
def aset {α : Type} : List (String × α) → String → α → List (String × α)
  | [], k, v => [(k, v)]
  | (k2, v2) :: rest, k, v =>
      if k2 = k then (k, v) :: rest else (k2, v2) :: aset rest k v

/-- Association-list deletion (`del d[k]`, no-op when absent). -/
def aerase {α : Type} : List (String × α) → String → List (String × α)
  | [], _ => []
  | (k2, v) :: rest, k =>
      if k2 = k then aerase rest k else (k2, v) :: aerase rest k

/-- Python `set.add` on a duplicate-free list. -/
def sadd (s : List String) (x : String) : List String :=
  if x ∈ s then s else s ++ [x]

/-- Python `set.discard`. -/
def sdel : List String → String → List String
  | [], _ => []
  | y :: rest, x => if y = x then sdel rest x else y :: sdel rest x

/-- The in-memory connection registry: `connected_users` maps a user id
to the list of its open sids, `sid_to_user` is the reverse map. -/
structure Registry where
  connected_users : List (String × List String)
  sid_to_user : List (String × String)
deriving DecidableEq

/-- The registry updates of `handle_connect` after token validation:
add the sid to the user's set (creating it when absent) and bind the
sid in the reverse map. -/
def regConnect (st : Registry) (sid uid : String) : Registry :=
  { connected_users :=
      aset st.connected_users uid (sadd ((alookup st.connected_users uid).getD []) sid),
    sid_to_user := aset st.sid_to_user sid uid }

/-- The shared removal shape of `on_leave_room` and `handle_disconnect`:
discard the sid from `connected_users[uid]` (deleting the entry when it
empties, and skipping the block entirely when the stored set is falsy),
then delete the sid's reverse binding. -/
def regRemove (st : Registry) (sid uid : String) : Registry :=
  match alookup st.connected_users uid with
  | none =>
      { connected_users := st.connected_users,
        sid_to_user := aerase st.sid_to_user sid }
  | some s =>
      if s.isEmpty then
        { connected_users := st.connected_users,
          sid_to_user := aerase st.sid_to_user sid }
      else if (sdel s sid).isEmpty then
        { connected_users := aerase st.connected_users uid,
          sid_to_user := aerase st.sid_to_user sid }
      else
        { connected_users := aset st.connected_users uid (sdel s sid),
          sid_to_user := aerase st.sid_to_user sid }

/-- Registry part of `on_leave_room`: guarded by the truthiness of the
client-supplied `room` and `user_id`; the removal targets the
client-supplied `user_id`, not the sid's bound user. -/
def regLeave (st : Registry) (sid room user_id : String) : Registry :=
  if room = "" ∨ user_id = "" then st else regRemove st sid user_id

/-- Registry part of `handle_disconnect`: resolve the bound user via the
reverse map (skipping cleanup for a falsy uid) and remove the sid. -/
def regDisconnect (st : Registry) (sid : String) : Registry :=
  match alookup st.sid_to_user sid with
  | none => st
  | some uid => if uid = "" then st else regRemove st sid uid

/-- The four socket events whose handlers touch the registry
(`join_room` never does). -/
inductive REv where
  | connect (sid uid : String)
  | joinRoom (sid room : String)
  | leaveRoom (sid room user_id : String)
  | disconnect (sid : String)

/-- Registry transition of one event. -/
def regStep (st : Registry) : REv → Registry
  | .connect sid uid => regConnect st sid uid
  | .joinRoom _ _ => st
  | .leaveRoom sid room u => regLeave st sid room u
  | .disconnect sid => regDisconnect st sid

/-- Run a sequence of events from a registry state. -/
def regRun (st : Registry) (evs : List REv) : Registry :=
  evs.foldl regStep st

/-- The empty registry at process start. -/
def regInit : Registry := { connected_users := [], sid_to_user := [] }

/-- The spec's registry invariant: a sid is bound to user `u` in the
reverse map iff it is a member of `connected_users[u]`, and no user
entry is an empty set (the last removal deletes the entry). -/
def RegInv (st : Registry) : Prop :=
  (∀ uid s, alookup st.connected_users uid = some s → s ≠ []) ∧
  (∀ sid uid, alookup st.sid_to_user sid = some uid ↔
     ∃ s, alookup st.connected_users uid = some s ∧ sid ∈ s)

/-- Boolean side conditions under which a trace exercises the handlers
the way the invariant expects: a connect must not rebind a sid already
bound to a different user, and a leave_room's client-supplied `user_id`
must match the sid's binding when the sid is bound. -/
def evOkB (st : Registry) : REv → Bool
  | .connect sid uid =>
      decide (alookup st.sid_to_user sid = none ∨ alookup st.sid_to_user sid = some uid)
  | .joinRoom _ _ => true
  | .leaveRoom sid room u =>
      decide (room = "" ∨ u = "" ∨ alookup st.sid_to_user sid = none ∨
        alookup st.sid_to_user sid = some u)
  | .disconnect _ => true

/-- `evOkB` holds along the whole trace. -/
def traceOkB (st : Registry) : List REv → Bool
  | [] => true
  | e :: rest => evOkB st e && traceOkB (regStep st e) rest

/-! ### Document-store snapshot -/

/-- A user document (only the public-profile projection the handlers
read). -/
structure UserDoc where
  uid : String
  full_name : String
  avatar_url : String
  username : String
deriving DecidableEq

/-- A group document (only the fields the handlers read). -/
structure Group where
  gid : String
  owner : String
  members : List String
deriving DecidableEq

/-- A chat message document, as read by the streak monitor. -/
structure Message where
  m_group : String
  m_user : Option String
  created_at : Nat
deriving DecidableEq

/-- A snapshot of the collections the modelled handlers consult. -/
structure Db where
  whiteboards : List Whiteboard
  users : List UserDoc
  groups : List Group
  messages : List Message
deriving DecidableEq

/-- `db.find_one('whiteboards', {'_id': ObjectId(i)})`. -/
def findWb (db : Db) (i : String) : Option Whiteboard :=
  db.whiteboards.find? (fun w => w.wid == i)

/-- `db.find_one('users', {'_id': ObjectId(i)})`. -/
def findUser (db : Db) (i : String) : Option UserDoc :=
  db.users.find? (fun u => u.uid == i)

/-- `db.find_one('groups', {'_id': group_id})`. -/
def findGroup (db : Db) (i : String) : Option Group :=
  db.groups.find? (fun g => g.gid == i)

/-! ### join_room handler (timers, presence, participant push) -/

/-- One in-memory room timer entry: `{'start_time': ..., 'warned': ...}`. -/
structure TimerEntry where
  start_time : Nat
  warned : Bool
deriving DecidableEq

/-- Per-room per-user presence record stored in `online_users`. -/
structure PresenceInfo where
  profile : Val
  last_seen : Nat
  psid : String

/-- The `room_timers` map. -/
abbrev Timers := List (String × TimerEntry)

/-- The `online_users` map: room → (user → presence record). -/
abbrev OnlineMap := List (String × List (String × PresenceInfo))

/-- The public profile projection built in `on_join_room` (null when
the user document cannot be resolved). -/
def profileOf (db : Db) (uid : String) : Val :=
  match findUser db uid with
  | some u => Val.obj [("id", Val.s u.uid), ("full_name", Val.s u.full_name),
      ("avatar_url", Val.s u.avatar_url), ("username", Val.s u.username)]
  | none => Val.null

/-- Result of one `on_join_room` invocation: its effects plus the new
timer and presence maps. -/
structure JoinOutcome where
  effects : Effects
  timers : Timers
  online : OnlineMap

/-- `on_join_room(data)` from src/app/__init__.py.  The handler resolves
the authenticated user from the sid, and for a `whiteboard:<id>` room
with a well-formed id it starts the room timer on first join and pushes
the user onto the session's `participants` array.  It performs no
lookup of the session document and no `is_active` check before doing
so.  It then records presence and broadcasts `online_users` and
`user_joined` to the room.  (The only `error` emit in the source is for
a transient transport `KeyError` on `join_room`, which a pure model
cannot raise.) -/
def on_join_room (db : Db) (reg : Registry) (timers : Timers) (online : OnlineMap)
    (sid room : String) (now : Nat) : JoinOutcome :=
  match alookup reg.sid_to_user sid with
  | none => { effects := noEffects, timers := timers, online := online }
  | some uid =>
      if room = "" ∨ uid = "" then { effects := noEffects, timers := timers, online := online }
      else
        let wbPart : Timers × List DbOp :=
          if strStarts room "whiteboard:" then
            if validOid (afterColon room) then
              (if (alookup timers room).isSome then timers
               else aset timers room { start_time := now, warned := false },
               if validOid uid then
                 [DbOp.pushToArray "whiteboards" (afterColon room) "participants" (Val.s uid)]
               else [])
            else (timers, [])
          else (timers, [])
        let profile := profileOf db uid
        let roomMap := aset ((alookup online room).getD []) uid
          { profile := profile, last_seen := now, psid := sid }
        { effects :=
            { emits :=
                [{ event := "online_users",
                   payload := Val.obj [("users", Val.arr (roomMap.map (fun p =>
                     Val.obj [("user_id", Val.s p.1), ("profile", p.2.profile)])))],
                   target := Target.room room },
                 { event := "user_joined",
                   payload := Val.obj [("user_id", Val.s uid), ("profile", profile),
                     ("timestamp", Val.n now)],
                   target := Target.room room }],
              dbOps := wbPart.2,
              tasks := [] },
          timers := wbPart.1,
          online := aset online room roomMap }

/-! ### message handler -/

/-- `html.escape` on one character (quote=True default: `&`, `<`, `>`,
double quote and apostrophe are replaced). -/
def htmlEscapeChar (c : Char) : String :=
  if c = '&' then "&amp;"
  else if c = '<' then "&lt;"
  else if c = '>' then "&gt;"
  else if c = '"' then "&quot;"
  else if c = Char.ofNat 39 then "&#x27;"
  else String.mk [c]

/-- `html.escape(str(message))`: the sequential `str.replace` passes of
the library function coincide with this character-wise map, because the
ampersand pass runs first and the later passes introduce no character
that an earlier pass rewrites. -/
def htmlEscape (s : String) : String := String.join (s.data.map htmlEscapeChar)

/-- `handle_message(data)` from src/app/__init__.py: broadcasts
`new_message` to the room with the HTML-escaped message text. -/
def handle_message (reg : Registry) (sid room msg : String) (now : Nat) : Effects :=
  match alookup reg.sid_to_user sid with
  | none => noEffects
  | some uid =>
      if room = "" ∨ msg = "" ∨ uid = "" then noEffects
      else
        { emits := [{ event := "new_message",
                      payload := Val.obj [("user_id", Val.s uid),
                        ("message", Val.s (htmlEscape msg)), ("timestamp", Val.n now)],
                      target := Target.room room }],
          dbOps := [], tasks := [] }

/-! ### whiteboard_draw handler -/

/-- `handle_whiteboard_draw(data)` from src/app/__init__.py.  For a
`whiteboard:<id>` room with a well-formed id the session document is
looked up and the sender's `can_draw` permission gates both the
`draw_update` broadcast (sender excluded) and the persistence push; a
malformed or missing session leaves `allowed` at its `True` default.
An unauthorized sender gets no event at all. -/
def handle_whiteboard_draw (db : Db) (reg : Registry) (sid room drawing : String)
    (now : Nat) : Effects :=
  match alookup reg.sid_to_user sid with
  | none => noEffects
  | some uid =>
      if room = "" ∨ drawing = "" ∨ uid = "" then noEffects
      else
        let wbO : Option Whiteboard :=
          if strStarts room "whiteboard:" then
            if validOid (afterColon room) then findWb db (afterColon room) else none
          else none
        let allowed : Bool :=
          match wbO with
          | some wb => (compute_permissions wb uid).can_draw
          | none => true
        if allowed then
          { emits := [{ event := "draw_update",
                        payload := Val.obj [("user_id", Val.s uid),
                          ("drawing_data", Val.s drawing), ("timestamp", Val.n now)],
                        target := Target.roomSkipSender room }],
            dbOps :=
              if strStarts room "whiteboard:" && validOid (afterColon room) then
                [DbOp.pushToArray "whiteboards" (afterColon room) "drawing_data" (Val.s drawing)]
              else [],
            tasks := [] }
        else noEffects

/-! ### grant/revoke capability handlers -/

/-- `group and str(group.get('owner')) == requester` resolved through
the session's `group_id` (falsy `group_id` or a missing group document
yield False), shared by the draw/speak handlers. -/
def isGroupOwner (db : Db) (wb : Whiteboard) (requester : String) : Bool :=
  match wb.group_id with
  | none => false
  | some gid =>
      match findGroup db gid with
      | none => false
      | some g => decide (g.owner = requester)

/-- The identical prologue of all six grant/revoke handlers: resolve
the requester from the sid, require a truthy `whiteboard:` room and
requester, a well-formed session id, and an existing session document. -/
def grantGuard (db : Db) (reg : Registry) (sid room : String) :
    Option (String × Whiteboard) :=
  match alookup reg.sid_to_user sid with
  | none => none
  | some requester =>
      if room = "" ∨ strStarts room "whiteboard:" = false ∨ requester = "" then none
      else if validOid (afterColon room) = false then none
      else
        match findWb db (afterColon room) with
        | none => none
        | some wb => some (requester, wb)

/-- The `permissions_updated` broadcast: the full capability snapshot of
the re-fetched session document. -/
def permissionsUpdatedEmit (room : String) (wb : Whiteboard) : Emit :=
  { event := "permissions_updated",
    payload := Val.obj [("can_draw", Val.arr (wb.can_draw.map Val.s)),
      ("can_speak", Val.arr (wb.can_speak.map Val.s)),
      ("can_share_screen", Val.arr (wb.can_share_screen.map Val.s))],
    target := Target.room room }

/-- `handle_grant_draw(data)`: creator OR group owner may grant; a
malformed target id raises at `ObjectId(target_user)` before any write
or emit and is swallowed by the handler's `except`. -/
def handle_grant_draw (db : Db) (reg : Registry) (sid room target : String) : Effects :=
  match grantGuard db reg sid room with
  | none => noEffects
  | some (requester, wb) =>
      if wb.created_by ≠ requester ∧ isGroupOwner db wb requester = false then noEffects
      else if validOid target = false then noEffects
      else
        let newList := if target ∈ wb.can_draw then wb.can_draw else wb.can_draw ++ [target]
        { emits := [permissionsUpdatedEmit room { wb with can_draw := newList }],
          dbOps :=
            if target ∈ wb.can_draw then []
            else [DbOp.updateOne "whiteboards" wb.wid
              [("can_draw", Val.arr (newList.map Val.s))]],
          tasks := [] }

/-- `handle_revoke_draw(data)`: creator OR group owner may revoke; the
target is removed by string comparison (no ObjectId parse). -/
def handle_revoke_draw (db : Db) (reg : Registry) (sid room target : String) : Effects :=
  match grantGuard db reg sid room with
  | none => noEffects
  | some (requester, wb) =>
      if wb.created_by ≠ requester ∧ isGroupOwner db wb requester = false then noEffects
      else
        let newList := sdel wb.can_draw target
        { emits := [permissionsUpdatedEmit room { wb with can_draw := newList }],
          dbOps := [DbOp.updateOne "whiteboards" wb.wid
            [("can_draw", Val.arr (newList.map Val.s))]],
          tasks := [] }

/-- `handle_grant_speak(data)`: creator OR group owner may grant; also
dispatches the async media-permission update for the target. -/
def handle_grant_speak (db : Db) (reg : Registry) (sid room target : String) : Effects :=
  match grantGuard db reg sid room with
  | none => noEffects
  | some (requester, wb) =>
      if wb.created_by ≠ requester ∧ isGroupOwner db wb requester = false then noEffects
      else if validOid target = false then noEffects
      else
        let newList := if target ∈ wb.can_speak then wb.can_speak else wb.can_speak ++ [target]
        let updated := { wb with can_speak := newList }
        { emits := [permissionsUpdatedEmit room updated],
          dbOps :=
            if target ∈ wb.can_speak then []
            else [DbOp.updateOne "whiteboards" wb.wid
              [("can_speak", Val.arr (newList.map Val.s))]],
          tasks := [BgTask.updateMediaPerms room target
            (compute_permissions updated target).can_publish] }

/-- `handle_revoke_speak(data)`: creator OR group owner may revoke;
also dispatches the async media update and a direct `force_mute` to
every open connection of the target user. -/
def handle_revoke_speak (db : Db) (reg : Registry) (sid room target : String) : Effects :=
  match grantGuard db reg sid room with
  | none => noEffects
  | some (requester, wb) =>
      if wb.created_by ≠ requester ∧ isGroupOwner db wb requester = false then noEffects
      else
        let newList := sdel wb.can_speak target
        let updated := { wb with can_speak := newList }
        { emits := permissionsUpdatedEmit room updated ::
            ((alookup reg.connected_users target).getD []).map (fun s =>
              { event := "force_mute",
                payload := Val.obj [("reason",
                  Val.s "Your microphone has been disabled by the session moderator.")],
                target := Target.sid s }),
          dbOps := [DbOp.updateOne "whiteboards" wb.wid
            [("can_speak", Val.arr (newList.map Val.s))]],
          tasks := [BgTask.updateMediaPerms room target
            (compute_permissions updated target).can_publish] }

/-- `handle_grant_screen_share(data)`: unlike draw/speak, ONLY the
session creator passes the authorization check — the group owner is
silently ignored (`if str(wb.get('created_by')) != requester: return`,
with no `is_owner` disjunct). -/
def handle_grant_screen_share (db : Db) (reg : Registry) (sid room target : String) : Effects :=
  match grantGuard db reg sid room with
  | none => noEffects
  | some (requester, wb) =>
      if wb.created_by ≠ requester then noEffects
      else if validOid target = false then noEffects
      else
        let newList :=
          if target ∈ wb.can_share_screen then wb.can_share_screen
          else wb.can_share_screen ++ [target]
        let updated := { wb with can_share_screen := newList }
        { emits := [permissionsUpdatedEmit room updated],
          dbOps :=
            if target ∈ wb.can_share_screen then []
            else [DbOp.updateOne "whiteboards" wb.wid
              [("can_share_screen", Val.arr (newList.map Val.s))]],
          tasks := [BgTask.updateMediaPerms room target
            (compute_permissions updated target).can_publish] }

/-- `handle_revoke_screen_share(data)`: creator only (same asymmetry as
grant); also pushes `force_stop_screen` to the target's connections. -/
def handle_revoke_screen_share (db : Db) (reg : Registry) (sid room target : String) :
    Effects :=
  match grantGuard db reg sid room with
  | none => noEffects
  | some (requester, wb) =>
      if wb.created_by ≠ requester then noEffects
      else
        let newList := sdel wb.can_share_screen target
        let updated := { wb with can_share_screen := newList }
        { emits := permissionsUpdatedEmit room updated ::
            ((alookup reg.connected_users target).getD []).map (fun s =>
              { event := "force_stop_screen",
                payload := Val.obj [("reason",
                  Val.s "Screen sharing has been disabled by the session moderator.")],
                target := Target.sid s }),
          dbOps := [DbOp.updateOne "whiteboards" wb.wid
            [("can_share_screen", Val.arr (newList.map Val.s))]],
          tasks := [BgTask.updateMediaPerms room target
            (compute_permissions updated target).can_publish] }

/-! ### Session timer monitor -/

/-- Result of processing one tracked room timer in one poll iteration. -/
structure TimerOutcome where
  effects : Effects
  timer : Option TimerEntry

/-- One iteration of `check_session_timers` for one tracked room timer.
`dbFails` models the document-store update raising: the source wraps
only the `update_one` in its own try/except, so on failure the update
is skipped (logged) while the `session_ended` broadcast and the
background deletion of the external media room are still issued, and
the loop continues.  Durations are in seconds; the hard limit is 1200s
(20 min), the warning threshold 900s (15 min).  The warning payload
hardcodes `minutes_remaining: 5` (the computed `remaining` value is
unused in the source). -/
def check_timer_once (dbFails : Bool) (now : Nat) (room : String) (t : TimerEntry) :
    TimerOutcome :=
  if 1200 < now - t.start_time then
    { effects :=
        { emits := [{ event := "session_ended",
                      payload := Val.obj [("session_id", Val.s (afterColon room)),
                        ("reason", Val.s "Time limit reached.")],
                      target := Target.room room }],
          dbOps :=
            if dbFails then []
            else [DbOp.updateOne "whiteboards" (afterColon room)
              [("is_active", Val.b false), ("ended_at", Val.n now)]],
          tasks := [BgTask.deleteMediaRoom room] },
      timer := none }
  else if 900 < now - t.start_time ∧ t.warned = false then
    { effects := { emits := [{ event := "session_warning",
                               payload := Val.obj [("session_id", Val.s (afterColon room)),
                                 ("minutes_remaining", Val.n 5)],
                               target := Target.room room }],
                   dbOps := [], tasks := [] },
      timer := some { start_time := t.start_time, warned := true } }
  else { effects := noEffects, timer := some t }

/-! ### Group streak monitor -/

/-- A `group_streaks` document.  `last_active_day` is the stored ISO
date as a day number (None when unset or unparsable). -/
structure GroupStreakDoc where
  gsid : String
  group_id : String
  streak_count : Nat
  last_active_day : Option Int
  threshold : Option Int
deriving DecidableEq

/-- The derived threshold `max(min_abs, int(max(1, round(total * min_percent))))`
at the default config (min_percent 0.2, min_abs 2).  `(2*n + 5) / 10`
is round-to-nearest of `n / 5`; exact halves cannot occur for an
integer member count, so the rounding mode is immaterial, and at the
claim's n = 10 the float product `10 * 0.2` is exactly 2.0. -/
def derivedThreshold (totalMembers : Nat) : Nat :=
  max 2 (max 1 ((2 * totalMembers + 5) / 10))

/-- Threshold selection: a truthy per-group override wins, otherwise
the derived default (`gs.get('threshold')` is falsy for None and 0). -/
def thresholdFor (gs : Option GroupStreakDoc) (totalMembers : Nat) : Int :=
  match gs with
  | some g =>
      match g.threshold with
      | some t => if t = 0 then (derivedThreshold totalMembers : Int) else t
      | none => (derivedThreshold totalMembers : Int)
  | none => (derivedThreshold totalMembers : Int)

/-- The distinct truthy sender ids of a group's messages created in the
trailing 24 hours (`created_at > now - 1 day`). -/
def activeSenders (msgs : List Message) (gid : String) (now : Nat) : List String :=
  (((msgs.filter (fun m => m.m_group == gid && now < m.created_at + 86400)).filterMap
    (fun m => m.m_user)).filter (fun u => u != "")).dedup

/-- One `check_group_streaks` pass for one group: the post-state of its
`group_streaks` document.  `gap` is `GROUP_STREAK_MAX_GAP_DAYS`
(default 7), `freshId` the id minted on insert, `today` the current
day number.  The same-day guard (`last_day == today_str`) makes the
daily increment idempotent. -/
def check_group_streak_once (gap : Int) (freshId gid : String) (gs : Option GroupStreakDoc)
    (threshold : Int) (activeCount : Nat) (today : Int) : Option GroupStreakDoc :=
  if threshold ≤ (activeCount : Int) then
    match gs with
    | none => some { gsid := freshId, group_id := gid, streak_count := 1,
                     last_active_day := some today, threshold := none }
    | some g =>
        if g.last_active_day = some today then some g
        else
          match g.last_active_day with
          | some last =>
              if today - last ≤ gap then
                some { g with streak_count := g.streak_count + 1, last_active_day := some today }
              else
                some { g with streak_count := 1, last_active_day := some today }
          | none => some { g with streak_count := 1, last_active_day := some today }
  else
    match gs with
    | none => none
    | some g =>
        if 0 < g.streak_count then
          match g.last_active_day with
          | some last =>
              if gap < today - last then
                some { g with streak_count := 0, last_active_day := none }
              else some g
          | none => some { g with streak_count := 0, last_active_day := none }
        else some g

/-! ### Concrete sample data used by counterexamples and witnesses -/

/-- A store holding one ended whiteboard session (`is_active = false`). -/
def dbEnded : Db :=
  { whiteboards := [{ wid := "aaaaaaaaaaaaaaaaaaaaaaaa",
                      created_by := "cccccccccccccccccccccccc", group_id := none,
                      is_active := false, participants := [], can_draw := [],
                      can_speak := [], can_share_screen := [], drawing_data := [] }],
    users := [], groups := [], messages := [] }

/-- A registry binding connection `s1` to a user with a well-formed id. -/
def regOne : Registry :=
  { connected_users := [("bbbbbbbbbbbbbbbbbbbbbbbb", ["s1"])],
    sid_to_user := [("s1", "bbbbbbbbbbbbbbbbbbbbbbbb")] }

/-- A store holding an active session created by `creator1` whose owning
group `eeeeeeeeeeeeeeeeeeeeeeee` is owned by `owner1`, and the target
user of the sample grant requests. -/
def dbOwned : Db :=
  { whiteboards := [{ wid := "aaaaaaaaaaaaaaaaaaaaaaaa", created_by := "creator1",
                      group_id := some "eeeeeeeeeeeeeeeeeeeeeeee", is_active := true,
                      participants := [], can_draw := [], can_speak := [],
                      can_share_screen := [], drawing_data := [] }],
    users := [],
    groups := [{ gid := "eeeeeeeeeeeeeeeeeeeeeeee", owner := "owner1", members := [] }],
    messages := [] }

/-- A registry binding connection `s1` to the group owner `owner1`. -/
def regOwner : Registry :=
  { connected_users := [("owner1", ["s1"])], sid_to_user := [("s1", "owner1")] }

/-- A registry binding connection `s2` to the session creator `creator1`. -/
def regCreator : Registry :=
  { connected_users := [("creator1", ["s2"])], sid_to_user := [("s2", "creator1")] }

/-- Messages for group `g1` observed at time 100000: exactly two
distinct senders (`u1`, `u2`) inside the trailing 24-hour window; one
message outside the window and one for another group are ignored. -/
def msgsTwo : List Message :=
  [{ m_group := "g1", m_user := some "u1", created_at := 90000 },
   { m_group := "g1", m_user := some "u2", created_at := 95000 },
   { m_group := "g1", m_user := some "u1", created_at := 96000 },
   { m_group := "g2", m_user := some "u3", created_at := 97000 },
   { m_group := "g1", m_user := some "u9", created_at := 100 }]

/-- A streak document with no per-group threshold override, last active
on day 19 with a running streak of 4. -/
def gsSample : GroupStreakDoc :=
  { gsid := "gs1", group_id := "g1", streak_count := 4,
    last_active_day := some 19, threshold := none }

/-! Lookup lemmas for the association-list and set operations. -/

theorem alookup_aset_self {α : Type} (l : List (String × α)) (k : String) (v : α) :
    alookup (aset l k v) k = some v := by
  induction l with
  | nil => simp [aset, alookup]
  | cons p rest ih =>
      obtain ⟨k2, v2⟩ := p
      by_cases h : k2 = k
      · subst h; simp [aset, alookup]
      · simp [aset, h, alookup, ih]

theorem alookup_aset_ne {α : Type} (l : List (String × α)) (k q : String) (v : α)
    (h : q ≠ k) : alookup (aset l k v) q = alookup l q := by
  induction l with
  | nil => simp [aset, alookup, Ne.symm h]
  | cons p rest ih =>
      obtain ⟨k2, v2⟩ := p
      by_cases h2 : k2 = k
      · subst h2; simp [aset, alookup, Ne.symm h]
      · simp [aset, h2, alookup, ih]

theorem alookup_aerase_self {α : Type} (l : List (String × α)) (k : String) :
    alookup (aerase l k) k = none := by
  induction l with
  | nil => simp [aerase, alookup]
  | cons p rest ih =>
      obtain ⟨k2, v2⟩ := p
      by_cases h : k2 = k
      · simp [aerase, h, ih]
      · simp [aerase, h, alookup, ih]

theorem alookup_aerase_ne {α : Type} (l : List (String × α)) (k q : String)
    (h : q ≠ k) : alookup (aerase l k) q = alookup l q := by
  induction l with
  | nil => simp [aerase]
  | cons p rest ih =>
      obtain ⟨k2, v2⟩ := p
      by_cases h2 : k2 = k
      · subst h2
        simp [aerase, alookup, Ne.symm h, ih]
      · simp [aerase, h2, alookup, ih]

theorem mem_sadd (s : List String) (x y : String) : x ∈ sadd s y ↔ x ∈ s ∨ x = y := by
  unfold sadd
  by_cases h : y ∈ s
  · simp only [if_pos h]
    constructor
    · exact Or.inl
    · rintro (hx | rfl)
      · exact hx
      · exact h
  · simp [if_neg h]

theorem sadd_ne_nil (s : List String) (y : String) : sadd s y ≠ [] := by
  unfold sadd
  by_cases h : y ∈ s
  · simp only [if_pos h]
    exact List.ne_nil_of_mem h
  · simp [if_neg h]

theorem mem_sdel (s : List String) (x y : String) : x ∈ sdel s y ↔ x ∈ s ∧ x ≠ y := by
  induction s with
  | nil => simp [sdel]
  | cons z rest ih =>
      have hstep : sdel (z :: rest) y = if z = y then sdel rest y else z :: sdel rest y := rfl
      rw [hstep]
      by_cases h : z = y
      · rw [if_pos h, ih, List.mem_cons]
        constructor
        · rintro ⟨hx, hne⟩
          exact ⟨Or.inr hx, hne⟩
        · rintro ⟨hx | hx, hne⟩
          · exact absurd (hx.trans h) hne
          · exact ⟨hx, hne⟩
      · rw [if_neg h, List.mem_cons, List.mem_cons, ih]
        constructor
        · rintro (rfl | ⟨hx, hne⟩)
          · exact ⟨Or.inl rfl, h⟩
          · exact ⟨Or.inr hx, hne⟩
        · rintro ⟨rfl | hx, hne⟩
          · exact Or.inl rfl
          · exact Or.inr ⟨hx, hne⟩

theorem eq_of_sdel_eq_nil {s : List String} {y : String} (h : sdel s y = []) :
    ∀ x ∈ s, x = y := by
  intro x hx
  by_contra hne
  have hmem : x ∈ sdel s y := (mem_sdel s x y).2 ⟨hx, hne⟩
  rw [h] at hmem
  exact absurd hmem (List.not_mem_nil x)

theorem isEmpty_true_iff {α : Type} (l : List α) : l.isEmpty = true ↔ l = [] := by
  cases l <;> simp

/-! Invariant preservation for the three registry mutations. -/

theorem regInit_inv : RegInv regInit := by
  constructor
  · intro uid s h
    simp [regInit, alookup] at h
  · intro sid uid
    simp [regInit, alookup]

theorem regConnect_inv {st : Registry} {sid uid : String} (hInv : RegInv st)
    (hok : alookup st.sid_to_user sid = none ∨ alookup st.sid_to_user sid = some uid) :
    RegInv (regConnect st sid uid) := by
  obtain ⟨h1, h2⟩ := hInv
  unfold regConnect RegInv
  refine ⟨?_, ?_⟩
  · intro u' s' hl
    by_cases hu : u' = uid
    · subst hu
      rw [alookup_aset_self] at hl
      cases hl
      exact sadd_ne_nil _ _
    · rw [alookup_aset_ne _ _ _ _ hu] at hl
      exact h1 u' s' hl
  · intro sid' uid'
    by_cases hs : sid' = sid
    · subst hs
      rw [alookup_aset_self]
      constructor
      · intro he
        injection he with he
        subst he
        exact ⟨_, alookup_aset_self _ _ _, (mem_sadd _ _ _).2 (Or.inr rfl)⟩
      · rintro ⟨s', hl, hm⟩
        by_cases hu : uid' = uid
        · subst hu; rfl
        · rw [alookup_aset_ne _ _ _ _ hu] at hl
          have hb : alookup st.sid_to_user sid' = some uid' := (h2 sid' uid').2 ⟨s', hl, hm⟩
          rcases hok with hok | hok
          · rw [hok] at hb; cases hb
          · rw [hok] at hb
            injection hb with hb
            exact absurd hb.symm hu
    · rw [alookup_aset_ne _ _ _ _ hs]
      by_cases hu : uid' = uid
      · subst hu
        rw [alookup_aset_self]
        cases hcu : alookup st.connected_users uid' with
        | none =>
            constructor
            · intro hb
              obtain ⟨s0, hl0, _⟩ := (h2 sid' uid').1 hb
              rw [hcu] at hl0
              cases hl0
            · rintro ⟨s', hl, hm⟩
              injection hl with hl
              subst hl
              simp only [Option.getD_none] at hm
              rcases (mem_sadd _ _ _).1 hm with hm | hm
              · exact absurd hm (List.not_mem_nil _)
              · exact absurd hm hs
        | some s0 =>
            constructor
            · intro hb
              obtain ⟨s1, hl1, hm1⟩ := (h2 sid' uid').1 hb
              rw [hcu] at hl1
              injection hl1 with hl1
              subst hl1
              refine ⟨_, rfl, ?_⟩
              simp only [Option.getD_some]
              exact (mem_sadd _ _ _).2 (Or.inl hm1)
            · rintro ⟨s', hl, hm⟩
              injection hl with hl
              subst hl
              simp only [Option.getD_some] at hm
              rcases (mem_sadd _ _ _).1 hm with hm | hm
              · exact (h2 sid' uid').2 ⟨s0, hcu, hm⟩
              · exact absurd hm hs
      · rw [alookup_aset_ne _ _ _ _ hu]
        exact h2 sid' uid'

theorem regRemove_inv {st : Registry} {sid uid : String} (hInv : RegInv st)
    (hok : alookup st.sid_to_user sid = none ∨ alookup st.sid_to_user sid = some uid) :
    RegInv (regRemove st sid uid) := by
  obtain ⟨h1, h2⟩ := hInv
  unfold regRemove
  cases hcu : alookup st.connected_users uid with
  | none =>
      refine ⟨h1, ?_⟩
      intro sid' uid'
      by_cases hs : sid' = sid
      · subst hs
        rw [alookup_aerase_self]
        constructor
        · intro he; cases he
        · rintro ⟨s', hl, hm⟩
          have hb : alookup st.sid_to_user sid' = some uid' := (h2 sid' uid').2 ⟨s', hl, hm⟩
          rcases hok with hok | hok
          · rw [hok] at hb; cases hb
          · rw [hok] at hb
            injection hb with hb
            subst hb
            rw [hcu] at hl
            cases hl
      · rw [alookup_aerase_ne _ _ _ hs]
        exact h2 sid' uid'
  | some s =>
      have hsne : s ≠ [] := h1 uid s hcu
      have hse : s.isEmpty = false := by
        cases s with
        | nil => exact absurd rfl hsne
        | cons a l => rfl
      dsimp only
      rw [if_neg (by rw [hse]; exact Bool.false_ne_true)]
      by_cases hdel : (sdel s sid).isEmpty = true
      · have hnil : sdel s sid = [] := (isEmpty_true_iff _).1 hdel
        rw [if_pos hdel]
        refine ⟨?_, ?_⟩
        · intro u' s' hl
          by_cases hu : u' = uid
          · subst hu
            rw [alookup_aerase_self] at hl
            cases hl
          · rw [alookup_aerase_ne _ _ _ hu] at hl
            exact h1 u' s' hl
        · intro sid' uid'
          by_cases hs : sid' = sid
          · subst hs
            rw [alookup_aerase_self]
            constructor
            · intro he; cases he
            · rintro ⟨s', hl, hm⟩
              by_cases hu : uid' = uid
              · subst hu
                rw [alookup_aerase_self] at hl
                cases hl
              · rw [alookup_aerase_ne _ _ _ hu] at hl
                have hb : alookup st.sid_to_user sid' = some uid' := (h2 sid' uid').2 ⟨s', hl, hm⟩
                rcases hok with hok | hok
                · rw [hok] at hb; cases hb
                · rw [hok] at hb
                  injection hb with hb
                  exact absurd hb.symm hu
          · rw [alookup_aerase_ne _ _ _ hs]
            by_cases hu : uid' = uid
            · subst hu
              rw [alookup_aerase_self]
              constructor
              · intro hb
                obtain ⟨s0, hl0, hm0⟩ := (h2 sid' uid').1 hb
                rw [hcu] at hl0
                injection hl0 with hl0
                subst hl0
                exact absurd (eq_of_sdel_eq_nil hnil sid' hm0) hs
              · rintro ⟨s', hl, _⟩
                cases hl
            · rw [alookup_aerase_ne _ _ _ hu]
              exact h2 sid' uid'
      · rw [if_neg hdel]
        rw [Bool.not_eq_true] at hdel
        have hdne : sdel s sid ≠ [] := by
          intro hno
          rw [hno] at hdel
          cases hdel
        refine ⟨?_, ?_⟩
        · intro u' s' hl
          by_cases hu : u' = uid
          · subst hu
            rw [alookup_aset_self] at hl
            injection hl with hl
            subst hl
            exact hdne
          · rw [alookup_aset_ne _ _ _ _ hu] at hl
            exact h1 u' s' hl
        · intro sid' uid'
          by_cases hs : sid' = sid
          · subst hs
            rw [alookup_aerase_self]
            constructor
            · intro he; cases he
            · rintro ⟨s', hl, hm⟩
              by_cases hu : uid' = uid
              · subst hu
                rw [alookup_aset_self] at hl
                injection hl with hl
                subst hl
                exact absurd rfl ((mem_sdel _ _ _).1 hm).2
              · rw [alookup_aset_ne _ _ _ _ hu] at hl
                have hb : alookup st.sid_to_user sid' = some uid' := (h2 sid' uid').2 ⟨s', hl, hm⟩
                rcases hok with hok | hok
                · rw [hok] at hb; cases hb
                · rw [hok] at hb
                  injection hb with hb
                  exact absurd hb.symm hu
          · rw [alookup_aerase_ne _ _ _ hs]
            by_cases hu : uid' = uid
            · subst hu
              rw [alookup_aset_self]
              constructor
              · intro hb
                obtain ⟨s0, hl0, hm0⟩ := (h2 sid' uid').1 hb
                rw [hcu] at hl0
                injection hl0 with hl0
                subst hl0
                exact ⟨_, rfl, (mem_sdel _ _ _).2 ⟨hm0, hs⟩⟩
              · rintro ⟨s', hl, hm⟩
                injection hl with hl
                subst hl
                exact (h2 sid' uid').2 ⟨s, hcu, ((mem_sdel _ _ _).1 hm).1⟩
            · rw [alookup_aset_ne _ _ _ _ hu]
              exact h2 sid' uid'

theorem regStep_inv {st : Registry} {e : REv} (hInv : RegInv st)
    (hok : evOkB st e = true) : RegInv (regStep st e) := by
  cases e with
  | connect sid uid =>
      simp only [evOkB, decide_eq_true_eq] at hok
      exact regConnect_inv hInv hok
  | joinRoom sid room => exact hInv
  | leaveRoom sid room u =>
      simp only [evOkB, decide_eq_true_eq] at hok
      by_cases hg : room = "" ∨ u = ""
      · simp only [regStep, regLeave, if_pos hg]
        exact hInv
      · simp only [regStep, regLeave, if_neg hg]
        push_neg at hg
        rcases hok with hok | hok | hok | hok
        · exact absurd hok hg.1
        · exact absurd hok hg.2
        · exact regRemove_inv hInv (Or.inl hok)
        · exact regRemove_inv hInv (Or.inr hok)
  | disconnect sid =>
      simp only [regStep, regDisconnect]
      cases hb : alookup st.sid_to_user sid with
      | none => exact hInv
      | some uid =>
          by_cases hu : uid = ""
          · simp only [if_pos hu]
            exact hInv
          · simp only [if_neg hu]
            exact regRemove_inv hInv (Or.inr hb)

theorem regRun_inv (evs : List REv) :
    ∀ st, RegInv st → traceOkB st evs = true → RegInv (regRun st evs) := by
  induction evs with
  | nil => intro st h _; exact h
  | cons e rest ih =>
      intro st h hok
      simp only [traceOkB, Bool.and_eq_true] at hok
      exact ih (regStep st e) (regStep_inv h hok.1) hok.2

/-- C3 (amended): after any sequence of connect, join_room, leave_room
and disconnect events in which no connect rebinds a sid to a different
user and every leave_room carries the user id actually bound to the
connection, the registry satisfies the forward/reverse-map invariant
and no forward-map entry is empty.  Without the leave_room condition
the invariant fails, because `on_leave_room` trusts the client-supplied
`user_id` (see the counterexample). -/
theorem registry_invariant_holds (evs : List REv)
    (h : traceOkB regInit evs = true) : RegInv (regRun regInit evs) :=
  regRun_inv evs regInit regInit_inv h

/-- Witness: a five-event trace (two tabs for one user, a join, a
matching leave, a final disconnect) satisfies the side condition, so
the amended C3 theorem applies to it. -/
theorem registry_invariant_holds_witness :
    traceOkB regInit
      [REv.connect "s1" "alice", REv.connect "s2" "alice", REv.joinRoom "s1" "roomA",
        REv.leaveRoom "s1" "roomA" "alice", REv.disconnect "s2"] = true ∧
    RegInv (regRun regInit
      [REv.connect "s1" "alice", REv.connect "s2" "alice", REv.joinRoom "s1" "roomA",
        REv.leaveRoom "s1" "roomA" "alice", REv.disconnect "s2"]) :=
  ⟨by decide, registry_invariant_holds _ (by decide)⟩

/-- C3 counterexample: the claim as stated is false.  After
`connect(s1, alice)` followed by `leave_room` with the forged
client-supplied user_id `bob`, sid `s1` is still a member of
`connected_users[alice]` but `sid_to_user` no longer binds it, so the
forward/reverse correspondence is broken. -/
theorem registry_invariant_fails_on_forged_leave :
    ¬ RegInv (regRun regInit [REv.connect "s1" "alice", REv.leaveRoom "s1" "roomA" "bob"]) := by
  intro h
  exact absurd ((h.2 "s1" "alice").mpr ⟨["s1"], by decide, by decide⟩) (by decide)

/-- C4: for every session document and user id, `can_publish` equals
`can_speak OR can_share` in the computed permission record. -/
theorem can_publish_eq_speak_or_share (wb : Whiteboard) (u : String) :
    (compute_permissions wb u).can_publish =
      ((compute_permissions wb u).can_speak || (compute_permissions wb u).can_share) := rfl

/-- C1 counterexample: the claim as stated is false.  For a join_room
event on the room of an ended session (`dbEnded` stores the referenced
session with `is_active = false`), the handler emits `online_users` and
`user_joined` with no `error` event, pushes the joiner onto the
session's `participants` array, and records the joiner in the room
presence map — instead of rejecting and leaving state unchanged. -/
theorem join_room_claim_false_on_ended_session :
    (findWb dbEnded "aaaaaaaaaaaaaaaaaaaaaaaa").map Whiteboard.is_active = some false ∧
    emitNames (on_join_room dbEnded regOne [] [] "s1"
        "whiteboard:aaaaaaaaaaaaaaaaaaaaaaaa" 100).effects =
      ["online_users", "user_joined"] ∧
    (on_join_room dbEnded regOne [] [] "s1"
        "whiteboard:aaaaaaaaaaaaaaaaaaaaaaaa" 100).effects.dbOps =
      [DbOp.pushToArray "whiteboards" "aaaaaaaaaaaaaaaaaaaaaaaa" "participants"
        (Val.s "bbbbbbbbbbbbbbbbbbbbbbbb")] ∧
    (alookup (on_join_room dbEnded regOne [] [] "s1"
        "whiteboard:aaaaaaaaaaaaaaaaaaaaaaaa" 100).online
      "whiteboard:aaaaaaaaaaaaaaaaaaaaaaaa").isSome = true :=
  ⟨rfl, rfl, rfl, rfl⟩

/-- C1 (amended): `on_join_room` performs no session-existence or
`is_active` check at all.  For every store state — in particular when
the referenced session is missing or ended — a join_room event on a
`whiteboard:<id>` room with a well-formed session id and a bound user
with a well-formed id appends the user to `participants`, records the
user in the room presence map, and broadcasts `online_users` and
`user_joined`; no `error` event is emitted for this condition. -/
theorem join_room_ignores_session_state (db : Db) (reg : Registry) (timers : Timers)
    (online : OnlineMap) (sid room uid : String) (now : Nat)
    (hbind : alookup reg.sid_to_user sid = some uid)
    (hroom : strStarts room "whiteboard:" = true)
    (hrne : room ≠ "")
    (hvalid : validOid (afterColon room) = true)
    (huid : validOid uid = true) :
    (on_join_room db reg timers online sid room now).effects.dbOps =
        [DbOp.pushToArray "whiteboards" (afterColon room) "participants" (Val.s uid)] ∧
    emitNames (on_join_room db reg timers online sid room now).effects =
        ["online_users", "user_joined"] ∧
    (alookup ((alookup (on_join_room db reg timers online sid room now).online room).getD [])
        uid).isSome = true := by
  have huidne : uid ≠ "" := by
    intro h
    rw [h] at huid
    simp [validOid] at huid
  refine ⟨?_, ?_, ?_⟩ <;>
    simp [on_join_room, hbind, hrne, huidne, hroom, hvalid, huid, emitNames,
      alookup_aset_self]

/-- Witness for the amended C1 theorem, instantiated at the ended
session of `dbEnded`. -/
theorem join_room_ignores_session_state_witness :
    (alookup regOne.sid_to_user "s1" = some "bbbbbbbbbbbbbbbbbbbbbbbb" ∧
      strStarts "whiteboard:aaaaaaaaaaaaaaaaaaaaaaaa" "whiteboard:" = true ∧
      validOid (afterColon "whiteboard:aaaaaaaaaaaaaaaaaaaaaaaa") = true ∧
      validOid "bbbbbbbbbbbbbbbbbbbbbbbb" = true) ∧
    (on_join_room dbEnded regOne [] [] "s1"
        "whiteboard:aaaaaaaaaaaaaaaaaaaaaaaa" 100).effects.dbOps =
      [DbOp.pushToArray "whiteboards" (afterColon "whiteboard:aaaaaaaaaaaaaaaaaaaaaaaa")
        "participants" (Val.s "bbbbbbbbbbbbbbbbbbbbbbbb")] :=
  ⟨⟨by decide, by decide, by decide, by decide⟩,
    (join_room_ignores_session_state dbEnded regOne [] [] "s1"
      "whiteboard:aaaaaaaaaaaaaaaaaaaaaaaa" "bbbbbbbbbbbbbbbbbbbbbbbb" 100
      (by decide) (by decide) (by decide) (by decide) (by decide)).1⟩

/-- C8: every message event with a truthy room, a truthy message and a
sender bound to an authenticated user broadcasts `new_message` whose
`message` field is exactly `html.escape(str(message))` — never the raw
client-supplied string. -/
theorem message_broadcast_is_html_escaped (reg : Registry) (sid room msg uid : String)
    (now : Nat)
    (hbind : alookup reg.sid_to_user sid = some uid)
    (hroom : room ≠ "") (hmsg : msg ≠ "") (huid : uid ≠ "") :
    (handle_message reg sid room msg now).emits =
      [{ event := "new_message",
         payload := Val.obj [("user_id", Val.s uid), ("message", Val.s (htmlEscape msg)),
           ("timestamp", Val.n now)],
         target := Target.room room }] := by
  unfold handle_message
  rw [hbind]
  dsimp only
  rw [if_neg (by push_neg; exact ⟨hroom, hmsg, huid⟩)]

/-- Witness for C8 at a script-injection message: the broadcast carries
the escaped text, which differs from the raw input. -/
theorem message_broadcast_is_html_escaped_witness :
    (alookup regOne.sid_to_user "s1" = some "bbbbbbbbbbbbbbbbbbbbbbbb" ∧
      ("roomA" : String) ≠ "" ∧ ("<b>" : String) ≠ "" ∧
      ("bbbbbbbbbbbbbbbbbbbbbbbb" : String) ≠ "") ∧
    (handle_message regOne "s1" "roomA" "<b>" 7).emits =
      [{ event := "new_message",
         payload := Val.obj [("user_id", Val.s "bbbbbbbbbbbbbbbbbbbbbbbb"),
           ("message", Val.s (htmlEscape "<b>")), ("timestamp", Val.n 7)],
         target := Target.room "roomA" }] ∧
    htmlEscape "<b>" = "&lt;b&gt;" :=
  ⟨⟨by decide, by decide, by decide, by decide⟩,
    message_broadcast_is_html_escaped regOne "s1" "roomA" "<b>" "bbbbbbbbbbbbbbbbbbbbbbbb" 7
      (by decide) (by decide) (by decide) (by decide),
    by decide⟩

/-- C5: a whiteboard_draw event on an existing whiteboard session whose
sender is neither the creator nor in the session's `can_draw` list is
silently dropped: no broadcast, no error to the sender, and no append
to the session's drawing history. -/
theorem draw_unauthorized_is_silent (db : Db) (reg : Registry)
    (sid room drawing uid : String) (wb : Whiteboard) (now : Nat)
    (hbind : alookup reg.sid_to_user sid = some uid)
    (hroom : strStarts room "whiteboard:" = true)
    (hvalid : validOid (afterColon room) = true)
    (hfound : findWb db (afterColon room) = some wb)
    (hnc : wb.created_by ≠ uid)
    (hng : uid ∉ wb.can_draw) :
    handle_whiteboard_draw db reg sid room drawing now = noEffects := by
  unfold handle_whiteboard_draw
  rw [hbind]
  dsimp only
  by_cases hg : room = "" ∨ drawing = "" ∨ uid = ""
  · rw [if_pos hg]
  · rw [if_neg hg]
    have hperm : (compute_permissions wb uid).can_draw = false := by
      simp [compute_permissions, hng]
      intro h
      exact absurd h hnc
    simp only [hroom, hvalid, if_true, hfound, hperm, Bool.false_eq_true, if_false]

/-- Witness for C5: a non-creator, non-granted member's draw event on
an active session produces no effects at all. -/
theorem draw_unauthorized_is_silent_witness :
    (alookup regOwner.sid_to_user "s1" = some "owner1" ∧
      strStarts "whiteboard:aaaaaaaaaaaaaaaaaaaaaaaa" "whiteboard:" = true ∧
      validOid (afterColon "whiteboard:aaaaaaaaaaaaaaaaaaaaaaaa") = true ∧
      (∀ w, findWb dbOwned (afterColon "whiteboard:aaaaaaaaaaaaaaaaaaaaaaaa") = some w →
        w.created_by ≠ "owner1" ∧ "owner1" ∉ w.can_draw)) ∧
    handle_whiteboard_draw dbOwned regOwner "s1" "whiteboard:aaaaaaaaaaaaaaaaaaaaaaaa"
      "stroke1" 5 = noEffects :=
  ⟨⟨by decide, by decide, by decide, by decide⟩,
    draw_unauthorized_is_silent dbOwned regOwner "s1" "whiteboard:aaaaaaaaaaaaaaaaaaaaaaaa"
      "stroke1" "owner1"
      { wid := "aaaaaaaaaaaaaaaaaaaaaaaa", created_by := "creator1",
        group_id := some "eeeeeeeeeeeeeeeeeeeeeeee", is_active := true, participants := [],
        can_draw := [], can_speak := [], can_share_screen := [], drawing_data := [] }
      5 (by decide) (by decide) (by decide) (by decide) (by decide) (by decide)⟩

/-- C6: when a tracked room timer exceeds the 1200-second hard limit,
the monitor broadcasts `session_ended` to the room, dispatches deletion
of the external media room, and removes the timer entry — for BOTH
values of `dbFails`, i.e. also when the document-store update marking
the session inactive raises (the update sits in its own try/except, so
the failure is logged and the loop continues rather than crashing). -/
theorem timer_hard_limit_survives_db_failure (dbFails : Bool) (now : Nat) (room : String)
    (t : TimerEntry) (h : 1200 < now - t.start_time) :
    (check_timer_once dbFails now room t).effects.emits =
      [{ event := "session_ended",
         payload := Val.obj [("session_id", Val.s (afterColon room)),
           ("reason", Val.s "Time limit reached.")],
         target := Target.room room }] ∧
    (check_timer_once dbFails now room t).effects.tasks = [BgTask.deleteMediaRoom room] ∧
    (check_timer_once dbFails now room t).timer = none := by
  unfold check_timer_once
  rw [if_pos h]
  exact ⟨rfl, rfl, rfl⟩

/-- Witness for C6 in the failing-persistence case: `dbFails = true`,
21 minutes elapsed. -/
theorem timer_hard_limit_survives_db_failure_witness :
    1200 < 1260 - (0 : Nat) ∧
    (check_timer_once true 1260 "whiteboard:aaaaaaaaaaaaaaaaaaaaaaaa"
        { start_time := 0, warned := false }).effects.tasks =
      [BgTask.deleteMediaRoom "whiteboard:aaaaaaaaaaaaaaaaaaaaaaaa"] :=
  ⟨by decide,
    (timer_hard_limit_survives_db_failure true 1260 "whiteboard:aaaaaaaaaaaaaaaaaaaaaaaa"
      { start_time := 0, warned := false } (by decide)).2.1⟩

/-- C10: every `session_warning` the monitor emits (elapsed time past
the 900-second warning threshold but not past the hard limit, timer not
yet warned) carries the constant `minutes_remaining: 5`, whatever the
actual elapsed time at the polling instant — the computed `remaining`
value in the source is never used. -/
theorem timer_warning_minutes_constant (dbFails : Bool) (now : Nat) (room : String)
    (t : TimerEntry) (h1 : 900 < now - t.start_time) (h2 : ¬ 1200 < now - t.start_time)
    (h3 : t.warned = false) :
    (check_timer_once dbFails now room t).effects.emits =
      [{ event := "session_warning",
         payload := Val.obj [("session_id", Val.s (afterColon room)),
           ("minutes_remaining", Val.n 5)],
         target := Target.room room }] := by
  unfold check_timer_once
  rw [if_neg h2, if_pos ⟨h1, h3⟩]

/-- Witness for C10 at an elapsed time of 1199 seconds — barely a
second of margin, yet the payload still says 5 minutes remain. -/
theorem timer_warning_minutes_constant_witness :
    900 < 1199 - (0 : Nat) ∧ ¬ 1200 < 1199 - (0 : Nat) ∧
    (check_timer_once false 1199 "whiteboard:aaaaaaaaaaaaaaaaaaaaaaaa"
        { start_time := 0, warned := false }).effects.emits =
      [{ event := "session_warning",
         payload := Val.obj
           [("session_id", Val.s (afterColon "whiteboard:aaaaaaaaaaaaaaaaaaaaaaaa")),
            ("minutes_remaining", Val.n 5)],
         target := Target.room "whiteboard:aaaaaaaaaaaaaaaaaaaaaaaa" }] :=
  ⟨by decide, by decide,
    timer_warning_minutes_constant false 1199 "whiteboard:aaaaaaaaaaaaaaaaaaaaaaaa"
      { start_time := 0, warned := false } (by decide) (by decide) (by decide)⟩

/-- C9: a grant_draw, grant_speak or grant_screen_share event whose
target `user_id` is not a well-formed ObjectId mutates no capability
set and emits no `permissions_updated`: `ObjectId(target_user)` raises
before any write or emit, and the handler's `except` swallows it. -/
theorem grant_invalid_target_no_effect (db : Db) (reg : Registry) (sid room target : String)
    (hv : validOid target = false) :
    handle_grant_draw db reg sid room target = noEffects ∧
    handle_grant_speak db reg sid room target = noEffects ∧
    handle_grant_screen_share db reg sid room target = noEffects := by
  refine ⟨?_, ?_, ?_⟩
  · unfold handle_grant_draw
    cases hg : grantGuard db reg sid room with
    | none => rfl
    | some p =>
        obtain ⟨requester, wb⟩ := p
        dsimp only
        by_cases hA : wb.created_by ≠ requester ∧ isGroupOwner db wb requester = false
        · rw [if_pos hA]
        · rw [if_neg hA, if_pos hv]
  · unfold handle_grant_speak
    cases hg : grantGuard db reg sid room with
    | none => rfl
    | some p =>
        obtain ⟨requester, wb⟩ := p
        dsimp only
        by_cases hA : wb.created_by ≠ requester ∧ isGroupOwner db wb requester = false
        · rw [if_pos hA]
        · rw [if_neg hA, if_pos hv]
  · unfold handle_grant_screen_share
    cases hg : grantGuard db reg sid room with
    | none => rfl
    | some p =>
        obtain ⟨requester, wb⟩ := p
        dsimp only
        by_cases hA : wb.created_by ≠ requester
        · rw [if_pos hA]
        · rw [if_neg hA, if_pos hv]

/-- Witness for C9: the session creator requests a grant for the
malformed target id `zzz`; all three handlers do nothing. -/
theorem grant_invalid_target_no_effect_witness :
    validOid "zzz" = false ∧
    handle_grant_draw dbOwned regCreator "s2" "whiteboard:aaaaaaaaaaaaaaaaaaaaaaaa"
      "zzz" = noEffects :=
  ⟨by decide,
    (grant_invalid_target_no_effect dbOwned regCreator "s2"
      "whiteboard:aaaaaaaaaaaaaaaaaaaaaaaa" "zzz" (by decide)).1⟩

/-- C2 counterexample: the claim as stated is false for the screen-share
capability.  In `dbOwned`, requester `owner1` owns the session's owning
group but is not the creator; their grant_screen_share and
revoke_screen_share requests produce no mutation and no
`permissions_updated` broadcast — while the same requester's grant_draw
request succeeds, showing the asymmetry. -/
theorem screen_share_ignores_group_owner :
    handle_grant_screen_share dbOwned regOwner "s1" "whiteboard:aaaaaaaaaaaaaaaaaaaaaaaa"
      "bbbbbbbbbbbbbbbbbbbbbbbb" = noEffects ∧
    handle_revoke_screen_share dbOwned regOwner "s1" "whiteboard:aaaaaaaaaaaaaaaaaaaaaaaa"
      "bbbbbbbbbbbbbbbbbbbbbbbb" = noEffects ∧
    emitNames (handle_grant_draw dbOwned regOwner "s1" "whiteboard:aaaaaaaaaaaaaaaaaaaaaaaa"
      "bbbbbbbbbbbbbbbbbbbbbbbb") = ["permissions_updated"] :=
  ⟨rfl, rfl, rfl⟩

/-- C2 (amended): a requester who owns the session's owning group but
is not the session creator is authorized for the draw and speak
capabilities — grant/revoke mutate the capability set and broadcast
`permissions_updated` exactly as for the creator — but NOT for
screen-share: grant_screen_share and revoke_screen_share check only
`created_by` and silently ignore the group owner. -/
theorem owner_authorization_by_capability (db : Db) (reg : Registry)
    (sid room requester gid target : String) (wb : Whiteboard) (g : Group)
    (hbind : alookup reg.sid_to_user sid = some requester)
    (hreq : requester ≠ "") (hrne : room ≠ "")
    (hroom : strStarts room "whiteboard:" = true)
    (hvalid : validOid (afterColon room) = true)
    (hfound : findWb db (afterColon room) = some wb)
    (hgid : wb.group_id = some gid)
    (hgrp : findGroup db gid = some g)
    (howner : g.owner = requester)
    (hnotc : wb.created_by ≠ requester)
    (htarget : validOid target = true)
    (htd : target ∉ wb.can_draw)
    (hts : target ∉ wb.can_speak) :
    (handle_grant_draw db reg sid room target).emits =
        [permissionsUpdatedEmit room { wb with can_draw := wb.can_draw ++ [target] }] ∧
    (handle_grant_draw db reg sid room target).dbOps =
        [DbOp.updateOne "whiteboards" wb.wid
          [("can_draw", Val.arr ((wb.can_draw ++ [target]).map Val.s))]] ∧
    (handle_revoke_draw db reg sid room target).emits =
        [permissionsUpdatedEmit room { wb with can_draw := sdel wb.can_draw target }] ∧
    (handle_revoke_draw db reg sid room target).dbOps =
        [DbOp.updateOne "whiteboards" wb.wid
          [("can_draw", Val.arr ((sdel wb.can_draw target).map Val.s))]] ∧
    (handle_grant_speak db reg sid room target).emits =
        [permissionsUpdatedEmit room { wb with can_speak := wb.can_speak ++ [target] }] ∧
    (handle_grant_speak db reg sid room target).dbOps =
        [DbOp.updateOne "whiteboards" wb.wid
          [("can_speak", Val.arr ((wb.can_speak ++ [target]).map Val.s))]] ∧
    (handle_revoke_speak db reg sid room target).emits =
        permissionsUpdatedEmit room { wb with can_speak := sdel wb.can_speak target } ::
          ((alookup reg.connected_users target).getD []).map (fun s =>
            { event := "force_mute",
              payload := Val.obj [("reason",
                Val.s "Your microphone has been disabled by the session moderator.")],
              target := Target.sid s }) ∧
    (handle_revoke_speak db reg sid room target).dbOps =
        [DbOp.updateOne "whiteboards" wb.wid
          [("can_speak", Val.arr ((sdel wb.can_speak target).map Val.s))]] ∧
    handle_grant_screen_share db reg sid room target = noEffects ∧
    handle_revoke_screen_share db reg sid room target = noEffects := by
  have hio : isGroupOwner db wb requester = true := by
    simp [isGroupOwner, hgid, hgrp, howner]
  have hguard : grantGuard db reg sid room = some (requester, wb) := by
    unfold grantGuard
    rw [hbind]
    dsimp only
    rw [if_neg (by push_neg; exact ⟨hrne, by simp [hroom], hreq⟩)]
    rw [if_neg (by simp [hvalid])]
    rw [hfound]
  have hAuth : ¬ (wb.created_by ≠ requester ∧ isGroupOwner db wb requester = false) := by
    rintro ⟨_, hfalse⟩
    rw [hio] at hfalse
    cases hfalse
  refine ⟨?_, ?_, ?_, ?_, ?_, ?_, ?_, ?_, ?_, ?_⟩
  · unfold handle_grant_draw
    rw [hguard]
    dsimp only
    rw [if_neg hAuth, if_neg (by simp [htarget])]
    simp [htd]
  · unfold handle_grant_draw
    rw [hguard]
    dsimp only
    rw [if_neg hAuth, if_neg (by simp [htarget])]
    simp [htd]
  · unfold handle_revoke_draw
    rw [hguard]
    dsimp only
    rw [if_neg hAuth]
  · unfold handle_revoke_draw
    rw [hguard]
    dsimp only
    rw [if_neg hAuth]
  · unfold handle_grant_speak
    rw [hguard]
    dsimp only
    rw [if_neg hAuth, if_neg (by simp [htarget])]
    simp [hts]
  · unfold handle_grant_speak
    rw [hguard]
    dsimp only
    rw [if_neg hAuth, if_neg (by simp [htarget])]
    simp [hts]
  · unfold handle_revoke_speak
    rw [hguard]
    dsimp only
    rw [if_neg hAuth]
  · unfold handle_revoke_speak
    rw [hguard]
    dsimp only
    rw [if_neg hAuth]
  · unfold handle_grant_screen_share
    rw [hguard]
    dsimp only
    rw [if_pos hnotc]
  · unfold handle_revoke_screen_share
    rw [hguard]
    dsimp only
    rw [if_pos hnotc]

/-- Witness for the amended C2 theorem at the group owner of `dbOwned`:
the owner's grant_draw mutates and broadcasts, while the same owner's
grant_screen_share is a no-op. -/
theorem owner_authorization_by_capability_witness :
    (alookup regOwner.sid_to_user "s1" = some "owner1" ∧
      strStarts "whiteboard:aaaaaaaaaaaaaaaaaaaaaaaa" "whiteboard:" = true ∧
      validOid (afterColon "whiteboard:aaaaaaaaaaaaaaaaaaaaaaaa") = true ∧
      validOid "bbbbbbbbbbbbbbbbbbbbbbbb" = true) ∧
    handle_grant_screen_share dbOwned regOwner "s1" "whiteboard:aaaaaaaaaaaaaaaaaaaaaaaa"
      "bbbbbbbbbbbbbbbbbbbbbbbb" = noEffects :=
  ⟨⟨by decide, by decide, by decide, by decide⟩,
    (owner_authorization_by_capability dbOwned regOwner "s1"
      "whiteboard:aaaaaaaaaaaaaaaaaaaaaaaa" "owner1" "eeeeeeeeeeeeeeeeeeeeeeee"
      "bbbbbbbbbbbbbbbbbbbbbbbb"
      { wid := "aaaaaaaaaaaaaaaaaaaaaaaa", created_by := "creator1",
        group_id := some "eeeeeeeeeeeeeeeeeeeeeeee", is_active := true, participants := [],
        can_draw := [], can_speak := [], can_share_screen := [], drawing_data := [] }
      { gid := "eeeeeeeeeeeeeeeeeeeeeeee", owner := "owner1", members := [] }
      (by decide) (by decide) (by decide) (by decide) (by decide) (by decide)
      (by decide) (by decide) (by decide) (by decide) (by decide) (by decide)
      (by decide)).2.2.2.2.2.2.2.2.1⟩

/-- C7: for a group with 10 members and no per-group threshold override
the monitor derives the threshold `max(2, round(10*0.2)) = 2`; a check
observing exactly 2 distinct message senders in the trailing 24 hours
increments `streak_count` by exactly 1 (creating the document at 1 on
first qualification, and incrementing when the previous active day is a
different day within the 7-day gap tolerance) and sets
`last_active_day` to the current day; a second check on the same day
leaves the document unchanged — no double increment. -/
theorem streak_two_senders_increments_once (msgs : List Message) (now : Nat)
    (freshId gid : String) (g : GroupStreakDoc) (today last : Int)
    (hact : (activeSenders msgs gid now).length = 2)
    (hth : g.threshold = none) :
    thresholdFor none 10 = 2 ∧
    thresholdFor (some g) 10 = 2 ∧
    check_group_streak_once 7 freshId gid none (thresholdFor none 10)
        (activeSenders msgs gid now).length today =
      some { gsid := freshId, group_id := gid, streak_count := 1,
             last_active_day := some today, threshold := none } ∧
    (g.last_active_day = some last → last ≠ today → today - last ≤ 7 →
      check_group_streak_once 7 freshId gid (some g) (thresholdFor (some g) 10)
          (activeSenders msgs gid now).length today =
        some { g with streak_count := g.streak_count + 1, last_active_day := some today }) ∧
    (g.last_active_day = some today →
      check_group_streak_once 7 freshId gid (some g) (thresholdFor (some g) 10)
          (activeSenders msgs gid now).length today = some g) := by
  have hd : derivedThreshold 10 = 2 := rfl
  have h0 : thresholdFor none 10 = 2 := by
    unfold thresholdFor
    dsimp only
    rw [hd]
    norm_num
  have h1 : thresholdFor (some g) 10 = 2 := by
    unfold thresholdFor
    dsimp only
    rw [hth]
    dsimp only
    rw [hd]
    norm_num
  refine ⟨h0, h1, ?_, ?_, ?_⟩
  · rw [hact, h0]
    unfold check_group_streak_once
    rw [if_pos (by norm_num)]
  · intro hld hne hgap
    rw [hact, h1]
    unfold check_group_streak_once
    rw [if_pos (by norm_num)]
    dsimp only
    rw [hld]
    rw [if_neg (by simp [hne])]
    dsimp only
    rw [if_pos hgap]
  · intro hld
    rw [hact, h1]
    unfold check_group_streak_once
    rw [if_pos (by norm_num)]
    dsimp only
    rw [hld, if_pos rfl]

/-- Witness for C7: `msgsTwo` yields exactly two distinct senders for
group `g1`; from `gsSample` (last active day 19, streak 4) a check on
day 20 yields streak 5 with `last_active_day = 20`. -/
theorem streak_two_senders_increments_once_witness :
    ((activeSenders msgsTwo "g1" 100000).length = 2 ∧ gsSample.threshold = none) ∧
    check_group_streak_once 7 "fresh1" "g1" (some gsSample)
        (thresholdFor (some gsSample) 10) (activeSenders msgsTwo "g1" 100000).length 20 =
      some { gsSample with streak_count := gsSample.streak_count + 1,
                           last_active_day := some 20 } :=
  ⟨⟨by decide, by decide⟩,
    (streak_two_senders_increments_once msgsTwo 100000 "fresh1" "g1" gsSample 20 19
      (by decide) (by decide)).2.2.2.1 (by decide) (by decide) (by decide)⟩

end GroupApp
